import Mathlib

/-!
# CCU Rounder — verification of the calculation layer

A shallow embedding, in Lean 4, of the calculation layer of the CCU Rounder
application (`src/unnamed/part_000`): the bidirectional IV-drip dose/rate
converter (`calcDose`, `calcRate`, lines 162–172) and the Fick-estimate
hemodynamics chain computed inside `useHemodynamics` (lines 79–159).

Modelling conventions.

* The drip converter receives already-parsed optional numbers
  (`clampNum` is applied by its caller at lines 338–356), so it is embedded
  over `Option ℚ`: `none` is JavaScript `undefined`, `some x` a finite
  number.  JavaScript double arithmetic is idealised as exact rational
  arithmetic.
* The hemodynamics engine reads raw text fields and coerces them itself,
  so its inputs are modelled as `Entry`: either an absent field
  (`undefined`) or a present text entry characterised by the JavaScript
  numeric coercion `Number(s)` of its text — a finite value, `NaN`
  (e.g. `Number("abc")`), or a signed infinity (e.g. `Number("Infinity")`).
  Finite values are idealised as real numbers; `Math.sqrt` of a negative
  argument yields `NaN`, which the value type `JNum` represents explicitly.
* JavaScript truthiness on numbers (`!x` true for `undefined`, `0`, `NaN`)
  is translated guard by guard, exactly as each source guard is written.
-/

/-! ## Drip conversion engine (source lines 162–172)

Inputs are parsed optional finite numbers; rationals stand in for JS doubles.
-/

/-- The shared intermediate of `calcDose` and `calcRate`
(source line 163 and line 169):
`const mgPerMl = mgInBag && volumeMl ? mgInBag / volumeMl : undefined;`.
The conditional tests JS truthiness, so a missing OR zero `mgInBag` or
`volumeMl` gives `undefined`. -/
def mgPerMl (mgInBag volumeMl : Option ℚ) : Option ℚ :=
  match mgInBag, volumeMl with
  | some m, some v => if m = 0 ∨ v = 0 then none else some (m / v)
  | _, _ => none

/-- Source lines 162–166:
`if (!mgPerMl || !rateMlHr || !weightKg || mgPerMl <= 0 || weightKg <= 0) return undefined;`
`return (rateMlHr * (mgPerMl * 1000)) / (60 * weightKg);`.
The truthiness tests reject a missing or zero concentration, rate or weight;
the comparisons additionally reject negative concentration and weight. -/
def calcDose (mgInBag volumeMl rateMlHr weightKg : Option ℚ) : Option ℚ :=
  match mgPerMl mgInBag volumeMl, rateMlHr, weightKg with
  | some c, some r, some w =>
      if c = 0 ∨ r = 0 ∨ w = 0 ∨ c ≤ 0 ∨ w ≤ 0 then none
      else some ((r * (c * 1000)) / (60 * w))
  | _, _, _ => none

/-- Source lines 168–172:
`if (!mgPerMl || !doseMcgKgMin || !weightKg || mgPerMl <= 0 || weightKg <= 0) return undefined;`
`return (doseMcgKgMin * 60 * weightKg) / (mgPerMl * 1000);`. -/
def calcRate (mgInBag volumeMl doseMcgKgMin weightKg : Option ℚ) : Option ℚ :=
  match mgPerMl mgInBag volumeMl, doseMcgKgMin, weightKg with
  | some c, some d, some w =>
      if c = 0 ∨ d = 0 ∨ w = 0 ∨ c ≤ 0 ∨ w ≤ 0 then none
      else some ((d * 60 * w) / (c * 1000))
  | _, _, _ => none

/-- `mgPerMl` on two present numbers, reduced to its guard. -/
lemma mgPerMl_some (m v : ℚ) :
    mgPerMl (some m) (some v) = if m = 0 ∨ v = 0 then none else some (m / v) := rfl

lemma mgPerMl_pos_ne (m v : ℚ) (hm : m ≠ 0) (hv : v ≠ 0) :
    mgPerMl (some m) (some v) = some (m / v) := by
  rw [mgPerMl_some, if_neg]
  rintro (h | h) <;> [exact hm h; exact hv h]

/-- A positive quotient forces both operands nonzero, so `mgPerMl` is defined. -/
lemma mgPerMl_of_div_pos (m v : ℚ) (h : 0 < m / v) :
    mgPerMl (some m) (some v) = some (m / v) := by
  have hv : v ≠ 0 := by rintro rfl; simp at h
  have hm : m ≠ 0 := by rintro rfl; simp at h
  exact mgPerMl_pos_ne m v hm hv

example : calcRate (some 4) (some 250) (some (3/10)) (some 70) = some (315/4) := by
  simp only [calcRate.eq_def, mgPerMl.eq_def]
  norm_num

example : calcDose (some 4) (some 250) (some 10) (some 70) = some (4/105) := by
  simp only [calcDose.eq_def, mgPerMl.eq_def]
  norm_num

lemma mgPerMl_none_left (v : Option ℚ) : mgPerMl none v = none := rfl

lemma mgPerMl_none_right (m : Option ℚ) : mgPerMl m none = none := by
  cases m <;> rfl

lemma calcDose_none_of_mgPerMl_none (m v r w : Option ℚ) (h : mgPerMl m v = none) :
    calcDose m v r w = none := by
  simp [calcDose.eq_def, h]

lemma calcRate_none_of_mgPerMl_none (m v d w : Option ℚ) (h : mgPerMl m v = none) :
    calcRate m v d w = none := by
  simp [calcRate.eq_def, h]

lemma calcDose_none_rate_none (m v w : Option ℚ) : calcDose m v none w = none := by
  rcases h : mgPerMl m v with _ | c <;> simp [calcDose.eq_def, h]

lemma calcRate_none_dose_none (m v w : Option ℚ) : calcRate m v none w = none := by
  rcases h : mgPerMl m v with _ | c <;> simp [calcRate.eq_def, h]

lemma calcDose_none_weight_none (m v r : Option ℚ) : calcDose m v r none = none := by
  rcases h : mgPerMl m v with _ | c <;> rcases r with _ | r <;> simp [calcDose.eq_def, h]

lemma calcRate_none_weight_none (m v d : Option ℚ) : calcRate m v d none = none := by
  rcases h : mgPerMl m v with _ | c <;> rcases d with _ | d <;> simp [calcRate.eq_def, h]

/-- With a non-positive concentration the common guard of `calcDose` rejects. -/
lemma calcDose_none_of_conc_nonpos (m v : ℚ) (r w : Option ℚ) (h : m / v ≤ 0) :
    calcDose (some m) (some v) r w = none := by
  by_cases hm0 : m = 0
  · exact calcDose_none_of_mgPerMl_none _ _ _ _ (by simp [mgPerMl_some, hm0])
  · by_cases hv0 : v = 0
    · exact calcDose_none_of_mgPerMl_none _ _ _ _ (by simp [mgPerMl_some, hv0])
    · have h0 := mgPerMl_pos_ne m v hm0 hv0
      rcases r with _ | r
      · exact calcDose_none_rate_none _ _ _
      · rcases w with _ | w
        · exact calcDose_none_weight_none _ _ _
        · simp only [calcDose.eq_def, h0]
          rw [if_pos (Or.inr (Or.inr (Or.inr (Or.inl h))))]

lemma calcRate_none_of_conc_nonpos (m v : ℚ) (d w : Option ℚ) (h : m / v ≤ 0) :
    calcRate (some m) (some v) d w = none := by
  by_cases hm0 : m = 0
  · exact calcRate_none_of_mgPerMl_none _ _ _ _ (by simp [mgPerMl_some, hm0])
  · by_cases hv0 : v = 0
    · exact calcRate_none_of_mgPerMl_none _ _ _ _ (by simp [mgPerMl_some, hv0])
    · have h0 := mgPerMl_pos_ne m v hm0 hv0
      rcases d with _ | d
      · exact calcRate_none_dose_none _ _ _
      · rcases w with _ | w
        · exact calcRate_none_weight_none _ _ _
        · simp only [calcRate.eq_def, h0]
          rw [if_pos (Or.inr (Or.inr (Or.inr (Or.inl h))))]

lemma calcDose_none_of_weight_nonpos (m v r : Option ℚ) (w : ℚ) (h : w ≤ 0) :
    calcDose m v r (some w) = none := by
  rcases h0 : mgPerMl m v with _ | c
  · exact calcDose_none_of_mgPerMl_none _ _ _ _ h0
  · rcases r with _ | r
    · exact calcDose_none_rate_none _ _ _
    · simp only [calcDose.eq_def, h0]
      rw [if_pos (Or.inr (Or.inr (Or.inr (Or.inr h))))]

lemma calcRate_none_of_weight_nonpos (m v d : Option ℚ) (w : ℚ) (h : w ≤ 0) :
    calcRate m v d (some w) = none := by
  rcases h0 : mgPerMl m v with _ | c
  · exact calcRate_none_of_mgPerMl_none _ _ _ _ h0
  · rcases d with _ | d
    · exact calcRate_none_dose_none _ _ _
    · simp only [calcRate.eq_def, h0]
      rw [if_pos (Or.inr (Or.inr (Or.inr (Or.inr h))))]

/-- Fully-guarded positive evaluation of `calcDose`. -/
lemma calcDose_pos_eval (m v r w : ℚ) (hc : 0 < m / v) (hw : 0 < w) (hr : r ≠ 0) :
    calcDose (some m) (some v) (some r) (some w)
      = some ((r * ((m / v) * 1000)) / (60 * w)) := by
  simp only [calcDose.eq_def, mgPerMl_of_div_pos m v hc]
  rw [if_neg]
  push_neg
  exact ⟨ne_of_gt hc, hr, ne_of_gt hw, hc, hw⟩

/-- Fully-guarded positive evaluation of `calcRate`. -/
lemma calcRate_pos_eval (m v d w : ℚ) (hc : 0 < m / v) (hw : 0 < w) (hd : d ≠ 0) :
    calcRate (some m) (some v) (some d) (some w)
      = some ((d * 60 * w) / ((m / v) * 1000)) := by
  simp only [calcRate.eq_def, mgPerMl_of_div_pos m v hc]
  rw [if_neg]
  push_neg
  exact ⟨ne_of_gt hc, hd, ne_of_gt hw, hc, hw⟩

/-- C1.  For all positive drug mass, diluent volume, weight and rate,
converting the rate to a dose with `calcDose` and back with `calcRate`,
with the same bag and weight, returns the original rate (exact
rational arithmetic standing in for floating point). -/
theorem calcDose_calcRate_roundTrip (m v w r : ℚ)
    (hm : 0 < m) (hv : 0 < v) (hw : 0 < w) (hr : 0 < r) :
    calcRate (some m) (some v) (calcDose (some m) (some v) (some r) (some w)) (some w)
      = some r := by
  have hc : 0 < m / v := div_pos hm hv
  have hdpos : 0 < (r * ((m / v) * 1000)) / (60 * w) := by positivity
  rw [calcDose_pos_eval m v r w hc hw (ne_of_gt hr),
    calcRate_pos_eval m v _ w hc hw (ne_of_gt hdpos)]
  have hm0 : m ≠ 0 := ne_of_gt hm
  have hv0 : v ≠ 0 := ne_of_gt hv
  have hw0 : w ≠ 0 := ne_of_gt hw
  congr 1
  field_simp
  ring

/-- C1 witness: the round trip at bag 4 mg / 250 mL, rate 10 mL/hr, 70 kg. -/
theorem calcDose_calcRate_roundTrip_witness :
    calcRate (some 4) (some 250) (calcDose (some 4) (some 250) (some 10) (some 70)) (some 70)
      = some 10 :=
  calcDose_calcRate_roundTrip 4 250 70 10 (by norm_num) (by norm_num) (by norm_num)
    (by norm_num)

/-- C6 counterexample.  With bag 4 mg / 250 mL, weight 70 kg — all present,
weight and concentration positive — and a present infusion rate of exactly 0,
the claim says the dose is present (and equal to 0); `calcDose` rejects the
zero rate through its truthiness test `!rateMlHr` and returns `undefined`. -/
theorem calcDose_absent_on_zero_rate :
    (0 : ℚ) < 4 / 250 ∧ (0 : ℚ) < 70 ∧
      calcDose (some 4) (some 250) (some 0) (some 70) = none := by
  refine ⟨by norm_num, by norm_num, ?_⟩
  simp only [calcDose.eq_def, mgPerMl_pos_ne 4 250 (by norm_num) (by norm_num)]
  simp

/-- C6 amended.  When drug mass, diluent volume, rate and weight are all
present with positive concentration and weight and a NONZERO rate, `calcDose`
returns `rate × concentration × 1000 / (60 × weight)`; it returns absent when
the rate is zero, the weight is non-positive, the concentration is
non-positive, or any required input is absent. -/
theorem calcDose_characterization (mgInBag volumeMl rateMlHr weightKg : Option ℚ) :
    (∀ m v r w, mgInBag = some m → volumeMl = some v → rateMlHr = some r →
        weightKg = some w → 0 < m / v → 0 < w → r ≠ 0 →
        calcDose mgInBag volumeMl rateMlHr weightKg
          = some ((r * ((m / v) * 1000)) / (60 * w)))
    ∧ (rateMlHr = some 0 → calcDose mgInBag volumeMl rateMlHr weightKg = none)
    ∧ (∀ w, weightKg = some w → w ≤ 0 →
        calcDose mgInBag volumeMl rateMlHr weightKg = none)
    ∧ (∀ m v, mgInBag = some m → volumeMl = some v → m / v ≤ 0 →
        calcDose mgInBag volumeMl rateMlHr weightKg = none)
    ∧ ((mgInBag = none ∨ volumeMl = none ∨ rateMlHr = none ∨ weightKg = none) →
        calcDose mgInBag volumeMl rateMlHr weightKg = none) := by
  refine ⟨?_, ?_, ?_, ?_, ?_⟩
  · rintro m v r w rfl rfl rfl rfl hc hw hr
    exact calcDose_pos_eval m v r w hc hw hr
  · rintro rfl
    rcases h0 : mgPerMl mgInBag volumeMl with _ | c
    · exact calcDose_none_of_mgPerMl_none _ _ _ _ h0
    · rcases weightKg with _ | w
      · exact calcDose_none_weight_none _ _ _
      · simp only [calcDose.eq_def, h0]
        simp
  · rintro w rfl hw
    exact calcDose_none_of_weight_nonpos _ _ _ w hw
  · rintro m v rfl rfl hc
    exact calcDose_none_of_conc_nonpos m v _ _ hc
  · rintro (rfl | rfl | rfl | rfl)
    · exact calcDose_none_of_mgPerMl_none _ _ _ _ (mgPerMl_none_left _)
    · exact calcDose_none_of_mgPerMl_none _ _ _ _ (mgPerMl_none_right _)
    · exact calcDose_none_rate_none _ _ _
    · exact calcDose_none_weight_none _ _ _

/-- C6 witness: the presence branch at bag 4 mg / 250 mL, rate 10 mL/hr,
70 kg, where the dose is 10 × 0.016 × 1000 / (60 × 70) = 4/105 mcg/kg/min. -/
theorem calcDose_characterization_witness :
    calcDose (some 4) (some 250) (some 10) (some 70)
      = some ((10 * ((4 / 250) * 1000)) / (60 * 70)) :=
  (calcDose_characterization (some 4) (some 250) (some 10) (some 70)).1
    4 250 10 70 rfl rfl rfl rfl (by norm_num) (by norm_num) (by norm_num)

/-- C8 counterexample.  The claim says the concentration intermediate is
defined only for positive diluent volume, and that a non-positive volume
forces both converters to return absent.  In the code the conditional tests
only truthiness: with volume −250 mL the intermediate is defined, and with
drug mass −4 mg as well the concentration comes out positive (0.016 mg/mL)
and `calcDose` returns a present dose. -/
theorem calcDose_present_on_negative_volume :
    ((-250 : ℚ) ≤ 0) ∧ mgPerMl (some (4 : ℚ)) (some (-250)) ≠ none ∧
      calcDose (some (-4)) (some (-250)) (some 10) (some 70) = some (4 / 105) := by
  refine ⟨by norm_num, ?_, ?_⟩
  · rw [mgPerMl_pos_ne 4 (-250) (by norm_num) (by norm_num)]
    exact Option.some_ne_none _
  · rw [calcDose_pos_eval (-4) (-250) 10 70 (by norm_num) (by norm_num) (by norm_num)]
    norm_num

/-- C8 amended.  The concentration intermediate is defined exactly when drug
mass and diluent volume are both present and NONZERO (the code tests
truthiness, not positivity, so a negative volume does not by itself force
absence); both converters return absent whenever the concentration is
undefined or non-positive — in particular whenever the diluent volume is
absent or zero, or the mass and volume disagree in sign. -/
theorem mgPerMl_characterization (mgInBag volumeMl rateMlHr doseMcgKgMin weightKg : Option ℚ) :
    (mgPerMl mgInBag volumeMl ≠ none ↔
      ∃ m v, mgInBag = some m ∧ volumeMl = some v ∧ m ≠ 0 ∧ v ≠ 0)
    ∧ (∀ m v, mgInBag = some m → volumeMl = some v → m / v ≤ 0 →
        calcDose mgInBag volumeMl rateMlHr weightKg = none ∧
        calcRate mgInBag volumeMl doseMcgKgMin weightKg = none)
    ∧ ((volumeMl = none ∨ volumeMl = some 0) →
        calcDose mgInBag volumeMl rateMlHr weightKg = none ∧
        calcRate mgInBag volumeMl doseMcgKgMin weightKg = none) := by
  refine ⟨?_, ?_, ?_⟩
  · constructor
    · intro h
      rcases hm : mgInBag with _ | m
      · exact absurd (by rw [hm] at h ⊢; exact mgPerMl_none_left _) h
      · rcases hv : volumeMl with _ | v
        · exact absurd (by rw [hv] at h ⊢; exact mgPerMl_none_right _) h
        · refine ⟨m, v, rfl, rfl, ?_, ?_⟩
          · rintro rfl
            rw [hm, hv, mgPerMl_some] at h
            simp at h
          · rintro rfl
            rw [hm, hv, mgPerMl_some] at h
            simp at h
    · rintro ⟨m, v, rfl, rfl, hm, hv⟩
      rw [mgPerMl_pos_ne m v hm hv]
      exact Option.some_ne_none _
  · rintro m v rfl rfl hc
    exact ⟨calcDose_none_of_conc_nonpos m v _ _ hc,
      calcRate_none_of_conc_nonpos m v _ _ hc⟩
  · rintro (rfl | rfl)
    · exact ⟨calcDose_none_of_mgPerMl_none _ _ _ _ (mgPerMl_none_right _),
        calcRate_none_of_mgPerMl_none _ _ _ _ (mgPerMl_none_right _)⟩
    · rcases mgInBag with _ | m
      · exact ⟨calcDose_none_of_mgPerMl_none _ _ _ _ (mgPerMl_none_left _),
          calcRate_none_of_mgPerMl_none _ _ _ _ (mgPerMl_none_left _)⟩
      · have h0 : mgPerMl (some m) (some 0) = none := by simp [mgPerMl_some]
        exact ⟨calcDose_none_of_mgPerMl_none _ _ _ _ h0,
          calcRate_none_of_mgPerMl_none _ _ _ _ h0⟩

/-- C8 witness: zero diluent volume forces both converters to absent. -/
theorem mgPerMl_characterization_witness :
    calcDose (some 4) (some 0) (some 10) (some 70) = none ∧
      calcRate (some 4) (some 0) (some (3/10)) (some 70) = none :=
  (mgPerMl_characterization (some 4) (some 0) (some 10) (some (3/10))
      (some 70)).2.2 (Or.inr rfl)

/-- C9.  The worked scenario of the spec: 4 mg in 250 mL (0.016 mg/mL),
target dose 0.3 mcg/kg/min, weight 70 kg; `calcRate` returns exactly
0.3 × 60 × 70 / (0.016 × 1000) = 78.75 mL/hr in exact arithmetic. -/
theorem calcRate_worked_example :
    calcRate (some 4) (some 250) (some (0.3 : ℚ)) (some 70)
      = some ((0.3 * 60 * 70) / (0.016 * 1000) : ℚ)
    ∧ ((0.3 * 60 * 70) / (0.016 * 1000) : ℚ) = 78.75 := by
  constructor
  · rw [calcRate_pos_eval 4 250 (0.3 : ℚ) 70 (by norm_num) (by norm_num) (by norm_num)]
    norm_num
  · norm_num

/-! ## Hemodynamics engine (source lines 41–44 and 79–159)

The engine reads raw text fields.  An input field (`Entry`) is either absent
(JS `undefined`) or a present text entry, characterised by the value of the
JavaScript numeric coercion `Number(text)` — a `JNum`: a finite number
(idealised as a real), `NaN` (e.g. for `"abc"`), or a signed infinity
(e.g. for `"Infinity"`).  `Number("")` is `0`, so an emptied field is a
present entry with value `0`.  Signed zero is not modelled; the one division
whose JS result depends on the sign of a zero divisor sits behind a guard
that excludes a zero divisor. -/

/-- The value of a JavaScript `number`: `NaN`, `±Infinity`, or a finite
double (idealised as a real). -/
inductive JNum where
  | nan : JNum
  | posInf : JNum
  | negInf : JNum
  | num : ℝ → JNum

/-- The three-way `sex` selector, `"M" | "F" | ""` (source line 52). -/
inductive Sex where
  | male : Sex
  | female : Sex
  | unspecified : Sex

/-- A raw text field of the form state: absent, or present with the value
its text coerces to under `Number`. -/
inductive Entry where
  | undef : Entry
  | ent : JNum → Entry

/-- Source lines 41–44:
`const x = Number(n); return Number.isFinite(x) ? x : undefined;`.
Absent fields coerce to `NaN`, hence `undefined`; `NaN` and `±Infinity`
fail `Number.isFinite` and give `undefined` as well. -/
def clampNum : Entry → Option ℝ
  | Entry.undef => none
  | Entry.ent (JNum.num x) => some x
  | Entry.ent _ => none

/-- The form state destructured at source line 80.  `sex` is never used by
the calculations. -/
structure HemoInputs where
  sex : Sex
  heightCm : Entry
  weightKg : Entry
  hb : Entry
  hr : Entry
  sbp : Entry
  dbp : Entry
  cvp : Entry
  pasp : Entry
  padp : Entry
  pcwp : Entry
  sao2 : Entry
  svo2 : Entry

/-- JS truthiness test on a number: `!b` holds for `NaN` and `0`
(`undefined` is handled by the surrounding `Option`). -/
def jsFalsy (b : JNum) : Prop := b = JNum.nan ∨ b = JNum.num 0

noncomputable section
open Classical

/-- `Math.sqrt`: `NaN` on a negative argument, otherwise the real square
root (the argument here is always finite). -/
def jsSqrt (x : ℝ) : JNum :=
  if x < 0 then JNum.nan else JNum.num (Real.sqrt x)

/-- JS subtraction of a coerced value from a finite number,
as in `mPAP - pcwp`. -/
def jsSub (x : ℝ) : JNum → JNum
  | JNum.nan => JNum.nan
  | JNum.posInf => JNum.negInf
  | JNum.negInf => JNum.posInf
  | JNum.num y => JNum.num (x - y)

/-- JS multiplication by a finite constant (`80 * …`, `125 * …`,
`… * 1000`). -/
def jsScale (k : ℝ) : JNum → JNum
  | JNum.nan => JNum.nan
  | JNum.num y => JNum.num (k * y)
  | JNum.posInf =>
      if 0 < k then JNum.posInf else if k < 0 then JNum.negInf else JNum.nan
  | JNum.negInf =>
      if 0 < k then JNum.negInf else if k < 0 then JNum.posInf else JNum.nan

/-- JS division.  Signed zero is not modelled: dividing a nonzero finite
number by zero takes the dividend's sign (the behaviour at `+0`); every
call below guards its divisor against zero, so the case never arises. -/
def jsDiv : JNum → JNum → JNum
  | JNum.nan, _ => JNum.nan
  | _, JNum.nan => JNum.nan
  | JNum.posInf, JNum.posInf => JNum.nan
  | JNum.posInf, JNum.negInf => JNum.nan
  | JNum.negInf, JNum.posInf => JNum.nan
  | JNum.negInf, JNum.negInf => JNum.nan
  | JNum.posInf, JNum.num y => if 0 ≤ y then JNum.posInf else JNum.negInf
  | JNum.negInf, JNum.num y => if 0 ≤ y then JNum.negInf else JNum.posInf
  | JNum.num _, JNum.posInf => JNum.num 0
  | JNum.num _, JNum.negInf => JNum.num 0
  | JNum.num x, JNum.num y =>
      if y = 0 then
        (if x = 0 then JNum.nan else if 0 < x then JNum.posInf else JNum.negInf)
      else JNum.num (x / y)

/-- Source lines 82–87: `if (!h || !w) return undefined;`
`return Math.sqrt((h * w) / 3600);` with `h`, `w` the clamped height and
weight.  A negative product reaches `Math.sqrt` and yields `NaN`. -/
def bsaCalc (heightCm weightKg : Entry) : Option JNum :=
  match clampNum heightCm, clampNum weightKg with
  | some h, some w => if h = 0 ∨ w = 0 then none else some (jsSqrt (h * w / 3600))
  | _, _ => none

/-- Source lines 89–94: `if (!s || !d) return undefined;`
`return d + (s - d) / 3;`. -/
def mapCalc (sbp dbp : Entry) : Option ℝ :=
  match clampNum sbp, clampNum dbp with
  | some s, some d => if s = 0 ∨ d = 0 then none else some (d + (s - d) / 3)
  | _, _ => none

/-- Source lines 96–101: `if (!ps || !pd) return undefined;`
`return (ps + 2 * pd) / 3;`. -/
def mPAPCalc (pasp padp : Entry) : Option ℝ :=
  match clampNum pasp, clampNum padp with
  | some ps, some pd => if ps = 0 ∨ pd = 0 then none else some ((ps + 2 * pd) / 3)
  | _, _ => none

/-- Source lines 103–108: `if (!H || !Sa) return undefined;`
`return 1.34 * H * (Sa / 100);`. -/
def caO2Calc (hb sao2 : Entry) : Option ℝ :=
  match clampNum hb, clampNum sao2 with
  | some H, some Sa => if H = 0 ∨ Sa = 0 then none else some (1.34 * H * (Sa / 100))
  | _, _ => none

/-- Source lines 110–115: the venous analogue of `caO2Calc`. -/
def cvO2Calc (hb svo2 : Entry) : Option ℝ :=
  match clampNum hb, clampNum svo2 with
  | some H, some Sv => if H = 0 ∨ Sv = 0 then none else some (1.34 * H * (Sv / 100))
  | _, _ => none

/-- Source lines 117–120: `if (!bsa) return undefined; return 125 * bsa;`.
The truthiness test drops an absent, zero, or `NaN` BSA. -/
def vo2Calc (bsa : Option JNum) : Option JNum :=
  match bsa with
  | some b => if jsFalsy b then none else some (jsScale 125 b)
  | none => none

/-- Source lines 122–127:
`if (vo2 == null || caO2 == null || cvO2 == null) return undefined;`
`const delta = caO2 - cvO2; if (delta <= 0) return undefined;`
`return vo2 / (delta * 10);`. -/
def coCalc (vo2 : Option JNum) (caO2 cvO2 : Option ℝ) : Option JNum :=
  match vo2, caO2, cvO2 with
  | some v, some a, some b =>
      if a - b ≤ 0 then none else some (jsDiv v (JNum.num ((a - b) * 10)))
  | _, _, _ => none

/-- Source lines 129–132:
`if (co == null || bsa == null || bsa === 0) return undefined;`
`return co / bsa;`. -/
def ciCalc (co bsa : Option JNum) : Option JNum :=
  match co, bsa with
  | some c, some b => if b = JNum.num 0 then none else some (jsDiv c b)
  | _, _ => none

/-- Source lines 134–139: `if (!C || !H || H === 0) return undefined;`
`return (C * 1000) / H;` with `C` the CO and `H` the clamped heart rate
(for which the truthiness test `!H` already implies `H === 0`). -/
def svCalc (co : Option JNum) (hr : Entry) : Option JNum :=
  match co, clampNum hr with
  | some c, some H =>
      if jsFalsy c ∨ H = 0 then none else some (jsDiv (jsScale 1000 c) (JNum.num H))
  | _, _ => none

/-- Source lines 141–147:
`if (M == null || C == null || Cv == null || C === 0) return undefined;`
`return (80 * (M - Cv)) / C;` with `Cv = clampNum(cvp)`. -/
def svrCalc (map : Option ℝ) (co : Option JNum) (cvp : Entry) : Option JNum :=
  match map, co, clampNum cvp with
  | some M, some C, some Cv =>
      if C = JNum.num 0 then none else some (jsDiv (JNum.num (80 * (M - Cv))) C)
  | _, _, _ => none

/-- Source lines 149–152:
`if (mPAP == null || co == null || pcwp == null || co === 0) return undefined;`
`return (80 * (mPAP - pcwp)) / co;`.  Unlike `svrCalc` this reads the RAW
`pcwp` text field (no `clampNum`): the null test only rejects a missing
field, and a present entry is coerced by the subtraction, so a non-numeric
entry propagates `NaN` or an infinity. -/
def pvrCalc (mPAP : Option ℝ) (co : Option JNum) (pcwp : Entry) : Option JNum :=
  match mPAP, co, pcwp with
  | some m, some C, Entry.ent p =>
      if C = JNum.num 0 then none else some (jsDiv (jsScale 80 (jsSub m p)) C)
  | _, _, _ => none

/-- Source lines 155–158: the Wood-Units variant, `(mPAP - pcwp) / co`,
with the same raw read of `pcwp`. -/
def pvrWUCalc (mPAP : Option ℝ) (co : Option JNum) (pcwp : Entry) : Option JNum :=
  match mPAP, co, pcwp with
  | some m, some C, Entry.ent p =>
      if C = JNum.num 0 then none else some (jsDiv (jsSub m p) C)
  | _, _, _ => none

/-- The record of the twelve derived values computed inside
`useHemodynamics` (the `HemoResults` of the specification). -/
structure HemoResults where
  bsa : Option JNum
  map : Option ℝ
  mPAP : Option ℝ
  caO2 : Option ℝ
  cvO2 : Option ℝ
  vo2 : Option JNum
  co : Option JNum
  ci : Option JNum
  sv : Option JNum
  svr : Option JNum
  pvr : Option JNum
  pvrWU : Option JNum

/-- The dependency chain of source lines 79–159 assembled into a record:
each field is the corresponding `useMemo` local of `useHemodynamics`. -/
def evalHemo (st : HemoInputs) : HemoResults :=
  let bsa := bsaCalc st.heightCm st.weightKg
  let map := mapCalc st.sbp st.dbp
  let mPAP := mPAPCalc st.pasp st.padp
  let caO2 := caO2Calc st.hb st.sao2
  let cvO2 := cvO2Calc st.hb st.svo2
  let vo2 := vo2Calc bsa
  let co := coCalc vo2 caO2 cvO2
  ⟨bsa, map, mPAP, caO2, cvO2, vo2, co,
    ciCalc co bsa, svCalc co st.hr, svrCalc map co st.cvp,
    pvrCalc mPAP co st.pcwp, pvrWUCalc mPAP co st.pcwp⟩

/-- Source lines 79–159 as a function value: the body computes the twelve
locals of `evalHemo` but ends at line 159 without a `return` statement, so
the call evaluates to JS `undefined` for every input — it never produces the
record its caller reads fields from (source lines 227 and 296–313). -/
def useHemodynamics (st : HemoInputs) : Option HemoResults :=
  let _ := evalHemo st
  none

@[simp] lemma evalHemo_bsa (st : HemoInputs) :
    (evalHemo st).bsa = bsaCalc st.heightCm st.weightKg := rfl

@[simp] lemma evalHemo_map (st : HemoInputs) :
    (evalHemo st).map = mapCalc st.sbp st.dbp := rfl

@[simp] lemma evalHemo_mPAP (st : HemoInputs) :
    (evalHemo st).mPAP = mPAPCalc st.pasp st.padp := rfl

@[simp] lemma evalHemo_caO2 (st : HemoInputs) :
    (evalHemo st).caO2 = caO2Calc st.hb st.sao2 := rfl

@[simp] lemma evalHemo_cvO2 (st : HemoInputs) :
    (evalHemo st).cvO2 = cvO2Calc st.hb st.svo2 := rfl

@[simp] lemma evalHemo_vo2 (st : HemoInputs) :
    (evalHemo st).vo2 = vo2Calc (bsaCalc st.heightCm st.weightKg) := rfl

@[simp] lemma evalHemo_co (st : HemoInputs) :
    (evalHemo st).co = coCalc (vo2Calc (bsaCalc st.heightCm st.weightKg))
      (caO2Calc st.hb st.sao2) (cvO2Calc st.hb st.svo2) := rfl

@[simp] lemma evalHemo_ci (st : HemoInputs) :
    (evalHemo st).ci = ciCalc (evalHemo st).co (evalHemo st).bsa := rfl

@[simp] lemma evalHemo_sv (st : HemoInputs) :
    (evalHemo st).sv = svCalc (evalHemo st).co st.hr := rfl

@[simp] lemma evalHemo_svr (st : HemoInputs) :
    (evalHemo st).svr = svrCalc (evalHemo st).map (evalHemo st).co st.cvp := rfl

@[simp] lemma evalHemo_pvr (st : HemoInputs) :
    (evalHemo st).pvr = pvrCalc (evalHemo st).mPAP (evalHemo st).co st.pcwp := rfl

@[simp] lemma evalHemo_pvrWU (st : HemoInputs) :
    (evalHemo st).pvrWU = pvrWUCalc (evalHemo st).mPAP (evalHemo st).co st.pcwp := rfl

end

/-! ## Concrete records and small evaluation lemmas -/

/-- A present field whose text parses to the finite number `x`. -/
def finEnt (x : ℝ) : Entry := Entry.ent (JNum.num x)

@[simp] lemma clampNum_finEnt (x : ℝ) : clampNum (finEnt x) = some x := rfl

@[simp] lemma clampNum_undef : clampNum Entry.undef = none := rfl

@[simp] lemma clampNum_nan : clampNum (Entry.ent JNum.nan) = none := rfl

/-- A form state with only SBP and DBP entered. -/
def sbpDbpOnly (s d : ℝ) : HemoInputs :=
  ⟨Sex.unspecified, Entry.undef, Entry.undef, Entry.undef, Entry.undef,
    finEnt s, finEnt d, Entry.undef, Entry.undef, Entry.undef, Entry.undef,
    Entry.undef, Entry.undef⟩

/-- A form state with only height and weight entered. -/
def heightWeightOnly (h w : ℝ) : HemoInputs :=
  ⟨Sex.unspecified, finEnt h, finEnt w, Entry.undef, Entry.undef,
    Entry.undef, Entry.undef, Entry.undef, Entry.undef, Entry.undef,
    Entry.undef, Entry.undef, Entry.undef⟩

/-- A fully-entered Fick scenario: height 180 cm, weight 80 kg (so that the
BSA radicand 180·80/3600 = 4 has the rational square root 2), Hb 14, HR 80,
SBP 120, DBP 80, CVP as given, PASP 40, PADP 20, PCWP as given, SaO₂ 98,
SvO₂ 70. -/
def fickRecord (cvp pcwp : Entry) : HemoInputs :=
  ⟨Sex.unspecified, finEnt 180, finEnt 80, finEnt 14, finEnt 80,
    finEnt 120, finEnt 80, cvp, finEnt 40, finEnt 20, pcwp,
    finEnt 98, finEnt 70⟩

/-- C2 (code bug).  `useHemodynamics` never returns the `HemoResults`
record: its body computes the twelve derived locals and then falls off the
end (source line 159) with no `return` statement, so its value is
`undefined` for every input, and the caller's field reads
(`results.bsa`, source line 296) throw. -/
theorem useHemodynamics_no_result : ∀ st : HemoInputs, useHemodynamics st = none :=
  fun _ => rfl

/-- C5 counterexample.  SBP 120 and DBP 0 are both present finite entries,
yet MAP is absent: the truthiness guard `!d` (source line 92) treats the
zero DBP as missing, while the claim says presence of both inputs is the
only guard (which would give MAP = 0 + (120 − 0)/3 = 40). -/
theorem map_absent_on_zero_dbp :
    clampNum (sbpDbpOnly 120 0).sbp = some 120 ∧
    clampNum (sbpDbpOnly 120 0).dbp = some 0 ∧
    (evalHemo (sbpDbpOnly 120 0)).map = none := by
  refine ⟨rfl, rfl, ?_⟩
  simp [sbpDbpOnly, mapCalc.eq_def]

/-- C5 amended.  MAP is present, with value DBP + (SBP − DBP)/3, exactly
when SBP and DBP are both present AND both nonzero; a missing, non-numeric,
or zero reading of either makes MAP absent (the guard tests truthiness, so
a zero pressure counts as missing). -/
theorem map_guard_characterization (st : HemoInputs) :
    (∀ s d : ℝ, clampNum st.sbp = some s → clampNum st.dbp = some d →
      s ≠ 0 → d ≠ 0 → (evalHemo st).map = some (d + (s - d) / 3))
    ∧ ((clampNum st.sbp = none ∨ clampNum st.sbp = some 0 ∨
        clampNum st.dbp = none ∨ clampNum st.dbp = some 0) →
      (evalHemo st).map = none) := by
  constructor
  · intro s d hs hd hs0 hd0
    simp only [evalHemo_map, mapCalc.eq_def, hs, hd]
    rw [if_neg]
    push_neg
    exact ⟨hs0, hd0⟩
  · rintro (h | h | h | h)
    · simp [mapCalc.eq_def, h]
    · rcases hd : clampNum st.dbp with _ | d <;> simp [mapCalc.eq_def, h, hd]
    · rcases hs : clampNum st.sbp with _ | s <;> simp [mapCalc.eq_def, h, hs]
    · rcases hs : clampNum st.sbp with _ | s <;> simp [mapCalc.eq_def, h, hs]

/-- C5 witness: SBP 120, DBP 80 give MAP = 80 + (120 − 80)/3. -/
theorem map_guard_characterization_witness :
    (evalHemo (sbpDbpOnly 120 80)).map = some (80 + (120 - 80) / 3) :=
  (map_guard_characterization (sbpDbpOnly 120 80)).1 120 80 rfl rfl
    (by norm_num) (by norm_num)

noncomputable section
open Classical

lemma jsSqrt_of_nonneg (x : ℝ) (hx : 0 ≤ x) : jsSqrt x = JNum.num (Real.sqrt x) := by
  unfold jsSqrt
  rw [if_neg (not_lt.mpr hx)]

lemma jsSqrt_of_neg (x : ℝ) (hx : x < 0) : jsSqrt x = JNum.nan := by
  unfold jsSqrt
  rw [if_pos hx]

lemma jsDiv_num_num (x y : ℝ) (hy : y ≠ 0) :
    jsDiv (JNum.num x) (JNum.num y) = JNum.num (x / y) := by
  simp only [jsDiv.eq_def]
  rw [if_neg hy]

@[simp] lemma jsScale_num (k y : ℝ) : jsScale k (JNum.num y) = JNum.num (k * y) := rfl

@[simp] lemma jsSub_nan (x : ℝ) : jsSub x JNum.nan = JNum.nan := rfl

@[simp] lemma jsDiv_nan_left (b : JNum) : jsDiv JNum.nan b = JNum.nan := by
  cases b <;> rfl

lemma not_jsFalsy_num (x : ℝ) (hx : x ≠ 0) : ¬ jsFalsy (JNum.num x) := by
  rintro (h | h)
  · cases h
  · exact hx (by injection h)

/-! ### Absence propagation of each rung of the chain -/

lemma bsaCalc_none (hc wk : Entry) (h : clampNum hc = none ∨ clampNum wk = none) :
    bsaCalc hc wk = none := by
  rcases h with h | h
  · simp [bsaCalc.eq_def, h]
  · rcases h1 : clampNum hc with _ | x <;> simp [bsaCalc.eq_def, h1, h]

lemma mapCalc_none (sb db : Entry) (h : clampNum sb = none ∨ clampNum db = none) :
    mapCalc sb db = none := by
  rcases h with h | h
  · simp [mapCalc.eq_def, h]
  · rcases h1 : clampNum sb with _ | x <;> simp [mapCalc.eq_def, h1, h]

lemma mPAPCalc_none (ps pd : Entry) (h : clampNum ps = none ∨ clampNum pd = none) :
    mPAPCalc ps pd = none := by
  rcases h with h | h
  · simp [mPAPCalc.eq_def, h]
  · rcases h1 : clampNum ps with _ | x <;> simp [mPAPCalc.eq_def, h1, h]

lemma caO2Calc_none (hb sa : Entry) (h : clampNum hb = none ∨ clampNum sa = none) :
    caO2Calc hb sa = none := by
  rcases h with h | h
  · simp [caO2Calc.eq_def, h]
  · rcases h1 : clampNum hb with _ | x <;> simp [caO2Calc.eq_def, h1, h]

lemma cvO2Calc_none (hb sv : Entry) (h : clampNum hb = none ∨ clampNum sv = none) :
    cvO2Calc hb sv = none := by
  rcases h with h | h
  · simp [cvO2Calc.eq_def, h]
  · rcases h1 : clampNum hb with _ | x <;> simp [cvO2Calc.eq_def, h1, h]

@[simp] lemma vo2Calc_none : vo2Calc none = none := rfl

lemma coCalc_none (vo2 : Option JNum) (a b : Option ℝ)
    (h : vo2 = none ∨ a = none ∨ b = none) : coCalc vo2 a b = none := by
  rcases h with h | h | h
  · simp [coCalc.eq_def, h]
  · rcases h1 : vo2 with _ | v <;> simp [coCalc.eq_def, h1, h]
  · rcases h1 : vo2 with _ | v <;> rcases h2 : a with _ | av <;>
      simp [coCalc.eq_def, h1, h2, h]

lemma ciCalc_none (co bsa : Option JNum) (h : co = none ∨ bsa = none) :
    ciCalc co bsa = none := by
  rcases h with h | h
  · simp [ciCalc.eq_def, h]
  · rcases h1 : co with _ | c <;> simp [ciCalc.eq_def, h1, h]

lemma svCalc_none (co : Option JNum) (hr : Entry)
    (h : co = none ∨ clampNum hr = none) : svCalc co hr = none := by
  rcases h with h | h
  · simp [svCalc.eq_def, h]
  · rcases h1 : co with _ | c <;> simp [svCalc.eq_def, h1, h]

lemma svrCalc_none (map : Option ℝ) (co : Option JNum) (cvp : Entry)
    (h : map = none ∨ co = none ∨ clampNum cvp = none) :
    svrCalc map co cvp = none := by
  rcases h with h | h | h
  · simp [svrCalc.eq_def, h]
  · rcases h1 : map with _ | m <;> simp [svrCalc.eq_def, h1, h]
  · rcases h1 : map with _ | m <;> rcases h2 : co with _ | c <;>
      simp [svrCalc.eq_def, h1, h2, h]

lemma pvrCalc_none (mPAP : Option ℝ) (co : Option JNum) (pcwp : Entry)
    (h : mPAP = none ∨ co = none ∨ pcwp = Entry.undef) :
    pvrCalc mPAP co pcwp = none := by
  rcases h with h | h | h
  · simp [pvrCalc.eq_def, h]
  · rcases h1 : mPAP with _ | m <;> simp [pvrCalc.eq_def, h1, h]
  · rcases h1 : mPAP with _ | m <;> rcases h2 : co with _ | c <;>
      simp [pvrCalc.eq_def, h1, h2, h]

lemma pvrWUCalc_none (mPAP : Option ℝ) (co : Option JNum) (pcwp : Entry)
    (h : mPAP = none ∨ co = none ∨ pcwp = Entry.undef) :
    pvrWUCalc mPAP co pcwp = none := by
  rcases h with h | h | h
  · simp [pvrWUCalc.eq_def, h]
  · rcases h1 : mPAP with _ | m <;> simp [pvrWUCalc.eq_def, h1, h]
  · rcases h1 : mPAP with _ | m <;> rcases h2 : co with _ | c <;>
      simp [pvrWUCalc.eq_def, h1, h2, h]

end

noncomputable section
open Classical

/-- The cardiac output of `fickRecord`: VO₂ 250 mL/min over
(CaO₂ − CvO₂) × 10 with Hb 14, SaO₂ 98, SvO₂ 70. -/
def fickCo : ℝ := 250 / ((1.34 * 14 * (98 / 100) - 1.34 * 14 * (70 / 100)) * 10)

lemma fickCo_pos : 0 < fickCo := by
  unfold fickCo
  norm_num

lemma fick_bsaCalc : bsaCalc (finEnt 180) (finEnt 80) = some (JNum.num 2) := by
  simp only [bsaCalc.eq_def, clampNum_finEnt]
  rw [if_neg (by norm_num), show (180 * 80 / 3600 : ℝ) = 4 by norm_num,
    jsSqrt_of_nonneg 4 (by norm_num),
    show Real.sqrt 4 = 2 by
      rw [show (4 : ℝ) = 2 ^ 2 by norm_num]
      exact Real.sqrt_sq (by norm_num)]

lemma fick_vo2Calc :
    vo2Calc (bsaCalc (finEnt 180) (finEnt 80)) = some (JNum.num 250) := by
  rw [fick_bsaCalc]
  simp only [vo2Calc.eq_def]
  rw [if_neg (not_jsFalsy_num 2 (by norm_num)), jsScale_num]
  norm_num

lemma fick_caO2Calc :
    caO2Calc (finEnt 14) (finEnt 98) = some (1.34 * 14 * (98 / 100)) := by
  simp only [caO2Calc.eq_def, clampNum_finEnt]
  rw [if_neg (by norm_num)]

lemma fick_cvO2Calc :
    cvO2Calc (finEnt 14) (finEnt 70) = some (1.34 * 14 * (70 / 100)) := by
  simp only [cvO2Calc.eq_def, clampNum_finEnt]
  rw [if_neg (by norm_num)]

lemma fick_coCalc :
    coCalc (vo2Calc (bsaCalc (finEnt 180) (finEnt 80)))
      (caO2Calc (finEnt 14) (finEnt 98)) (cvO2Calc (finEnt 14) (finEnt 70))
      = some (JNum.num fickCo) := by
  rw [fick_vo2Calc, fick_caO2Calc, fick_cvO2Calc]
  simp only [coCalc.eq_def]
  rw [if_neg (by norm_num), jsDiv_num_num 250 _ (by norm_num)]
  rfl

lemma fick_co (c p : Entry) :
    (evalHemo (fickRecord c p)).co = some (JNum.num fickCo) :=
  fick_coCalc

lemma fick_vo2 (c p : Entry) :
    (evalHemo (fickRecord c p)).vo2 = some (JNum.num 250) :=
  fick_vo2Calc

lemma fick_caO2 (c p : Entry) :
    (evalHemo (fickRecord c p)).caO2 = some (1.34 * 14 * (98 / 100)) :=
  fick_caO2Calc

lemma fick_cvO2 (c p : Entry) :
    (evalHemo (fickRecord c p)).cvO2 = some (1.34 * 14 * (70 / 100)) :=
  fick_cvO2Calc

lemma fick_mPAP (c p : Entry) :
    (evalHemo (fickRecord c p)).mPAP = some ((40 + 2 * 20) / 3) := by
  rw [evalHemo_mPAP]
  show mPAPCalc (finEnt 40) (finEnt 20) = _
  simp only [mPAPCalc.eq_def, clampNum_finEnt]
  rw [if_neg (by norm_num)]

lemma fick_map (c p : Entry) :
    (evalHemo (fickRecord c p)).map = some (80 + (120 - 80) / 3) := by
  rw [evalHemo_map]
  show mapCalc (finEnt 120) (finEnt 80) = _
  simp only [mapCalc.eq_def, clampNum_finEnt]
  rw [if_neg (by norm_num)]

end

/-- C3 counterexample.  A non-parsing PCWP entry (`Number("abc")` is `NaN`)
is an absent input in the sense of the data model (`clampNum` coerces it to
`undefined`), yet with mean PAP and CO present the Wood-Units PVR is NOT
absent: the raw `pcwp` read at source line 156 skips `clampNum`, the null
test sees a present field, and the subtraction propagates `NaN` into the
result. -/
theorem pvrWU_nan_on_nonnumeric_pcwp :
    clampNum (fickRecord Entry.undef (Entry.ent JNum.nan)).pcwp = none ∧
    (evalHemo (fickRecord Entry.undef (Entry.ent JNum.nan))).pvrWU
      = some JNum.nan := by
  refine ⟨rfl, ?_⟩
  rw [evalHemo_pvrWU, fick_mPAP, fick_co,
    show (fickRecord Entry.undef (Entry.ent JNum.nan)).pcwp
      = Entry.ent JNum.nan from rfl]
  simp only [pvrWUCalc.eq_def]
  rw [if_neg]
  · rw [jsSub_nan, jsDiv_nan_left]
  · intro h
    have h0 : fickCo = 0 := by injection h
    exact absurd h0 (ne_of_gt fickCo_pos)

/-- C3 amended.  Every output field is absent whenever a required upstream
input or derived value is absent, where for PVR (both unit systems) the
PCWP requirement must be read as "the PCWP field is missing": a present but
non-numeric PCWP entry instead propagates a non-finite value into PVR,
because the PVR rungs read the raw field without the numeric coercion every
other rung applies. -/
theorem hemo_absent_propagation (st : HemoInputs) :
    (clampNum st.heightCm = none ∨ clampNum st.weightKg = none →
      (evalHemo st).bsa = none)
    ∧ (clampNum st.sbp = none ∨ clampNum st.dbp = none → (evalHemo st).map = none)
    ∧ (clampNum st.pasp = none ∨ clampNum st.padp = none → (evalHemo st).mPAP = none)
    ∧ (clampNum st.hb = none ∨ clampNum st.sao2 = none → (evalHemo st).caO2 = none)
    ∧ (clampNum st.hb = none ∨ clampNum st.svo2 = none → (evalHemo st).cvO2 = none)
    ∧ ((evalHemo st).bsa = none → (evalHemo st).vo2 = none)
    ∧ ((evalHemo st).vo2 = none ∨ (evalHemo st).caO2 = none ∨
        (evalHemo st).cvO2 = none → (evalHemo st).co = none)
    ∧ ((evalHemo st).co = none ∨ (evalHemo st).bsa = none →
        (evalHemo st).ci = none)
    ∧ ((evalHemo st).co = none ∨ clampNum st.hr = none → (evalHemo st).sv = none)
    ∧ ((evalHemo st).map = none ∨ (evalHemo st).co = none ∨
        clampNum st.cvp = none → (evalHemo st).svr = none)
    ∧ ((evalHemo st).mPAP = none ∨ (evalHemo st).co = none ∨
        st.pcwp = Entry.undef →
        (evalHemo st).pvr = none ∧ (evalHemo st).pvrWU = none) := by
  refine ⟨fun h => bsaCalc_none _ _ h, fun h => mapCalc_none _ _ h,
    fun h => mPAPCalc_none _ _ h, fun h => caO2Calc_none _ _ h,
    fun h => cvO2Calc_none _ _ h, ?_, ?_, ?_, ?_, ?_, ?_⟩
  · intro h
    rw [evalHemo_vo2, show bsaCalc st.heightCm st.weightKg = none from h,
      vo2Calc_none]
  · intro h
    exact coCalc_none _ _ _ h
  · intro h
    exact ciCalc_none _ _ h
  · intro h
    exact svCalc_none _ _ h
  · intro h
    exact svrCalc_none _ _ _ h
  · intro h
    exact ⟨pvrCalc_none _ _ _ h, pvrWUCalc_none _ _ _ h⟩

/-- C3 witness: with height missing, BSA is absent. -/
theorem hemo_absent_propagation_witness :
    (evalHemo (sbpDbpOnly 120 80)).bsa = none :=
  (hemo_absent_propagation (sbpDbpOnly 120 80)).1 (Or.inl rfl)

lemma svCalc_hr_zero (co : Option JNum) (hr : Entry) (h : clampNum hr = some 0) :
    svCalc co hr = none := by
  rcases hco : co with _ | c
  · exact svCalc_none _ _ (Or.inl rfl)
  · simp only [svCalc.eq_def, h]
    rw [if_pos (Or.inr rfl)]

lemma svCalc_falsy (co : Option JNum) (hr : Entry) (c : JNum)
    (hco : co = some c) (hc : jsFalsy c) : svCalc co hr = none := by
  subst hco
  rcases hhr : clampNum hr with _ | H
  · exact svCalc_none _ _ (Or.inr hhr)
  · simp only [svCalc.eq_def, hhr]
    rw [if_pos (Or.inl hc)]

lemma svrCalc_co_zero (map : Option ℝ) (co : Option JNum) (cvp : Entry)
    (hco : co = some (JNum.num 0)) : svrCalc map co cvp = none := by
  subst hco
  rcases h1 : map with _ | M
  · exact svrCalc_none _ _ _ (Or.inl rfl)
  · rcases h2 : clampNum cvp with _ | Cv
    · exact svrCalc_none _ _ _ (Or.inr (Or.inr h2))
    · simp only [svrCalc.eq_def, h2]
      rw [if_pos trivial]

lemma pvrCalc_co_zero (mPAP : Option ℝ) (co : Option JNum) (pcwp : Entry)
    (hco : co = some (JNum.num 0)) : pvrCalc mPAP co pcwp = none := by
  subst hco
  rcases h1 : mPAP with _ | M
  · exact pvrCalc_none _ _ _ (Or.inl rfl)
  · rcases h2 : pcwp with _ | p
    · exact pvrCalc_none _ _ _ (Or.inr (Or.inr rfl))
    · simp only [pvrCalc.eq_def]
      rw [if_pos trivial]

lemma pvrWUCalc_co_zero (mPAP : Option ℝ) (co : Option JNum) (pcwp : Entry)
    (hco : co = some (JNum.num 0)) : pvrWUCalc mPAP co pcwp = none := by
  subst hco
  rcases h1 : mPAP with _ | M
  · exact pvrWUCalc_none _ _ _ (Or.inl rfl)
  · rcases h2 : pcwp with _ | p
    · exact pvrWUCalc_none _ _ _ (Or.inr (Or.inr rfl))
    · simp only [pvrWUCalc.eq_def]
      rw [if_pos trivial]

lemma ciCalc_bsa_zero (co bsa : Option JNum) (h : bsa = some (JNum.num 0)) :
    ciCalc co bsa = none := by
  subst h
  rcases hco : co with _ | c
  · exact ciCalc_none _ _ (Or.inl rfl)
  · simp only [ciCalc.eq_def]
    rw [if_pos trivial]

lemma vo2Calc_falsy (bsa : Option JNum) (b : JNum) (hb : bsa = some b)
    (h : jsFalsy b) : vo2Calc bsa = none := by
  subst hb
  simp only [vo2Calc.eq_def]
  rw [if_pos h]

/-- C4 counterexample.  Height 170 and weight −70 are both present finite
entries; the claim says a negative weight yields an absent dependent
quantity, but the BSA guard only tests truthiness, the radicand
170 × (−70) / 3600 is negative, and `Math.sqrt` returns `NaN`: BSA is
present as `NaN`, not absent. -/
theorem bsa_nan_on_negative_weight :
    clampNum (heightWeightOnly 170 (-70)).weightKg = some (-70) ∧
    (evalHemo (heightWeightOnly 170 (-70))).bsa = some JNum.nan := by
  refine ⟨rfl, ?_⟩
  rw [evalHemo_bsa,
    show (heightWeightOnly 170 (-70)).heightCm = finEnt 170 from rfl,
    show (heightWeightOnly 170 (-70)).weightKg = finEnt (-70) from rfl]
  simp only [bsaCalc.eq_def, clampNum_finEnt]
  rw [if_neg (by norm_num), jsSqrt_of_neg _ (by norm_num)]

/-- C4 amended.  A zero or negative weight or a non-positive concentration
makes both drip conversions absent; a zero heart rate, a zero cardiac
output, or a zero BSA makes the quantity dividing by it absent — with one
exception the counterexample forces: present height and weight whose
product is negative give BSA = `NaN` rather than absent (all downstream
consumers of a `NaN` BSA then treat it as absent). -/
theorem absent_on_invalid_inputs (m v r d w : Option ℚ) (st : HemoInputs) :
    (∀ wq : ℚ, w = some wq → wq ≤ 0 →
        calcDose m v r w = none ∧ calcRate m v d w = none)
    ∧ (∀ mq vq : ℚ, m = some mq → v = some vq → mq / vq ≤ 0 →
        calcDose m v r w = none ∧ calcRate m v d w = none)
    ∧ (clampNum st.hr = some 0 → (evalHemo st).sv = none)
    ∧ ((evalHemo st).co = some (JNum.num 0) →
        (evalHemo st).sv = none ∧ (evalHemo st).svr = none ∧
        (evalHemo st).pvr = none ∧ (evalHemo st).pvrWU = none)
    ∧ ((evalHemo st).bsa = some (JNum.num 0) →
        (evalHemo st).vo2 = none ∧ (evalHemo st).ci = none)
    ∧ ((evalHemo st).bsa = some JNum.nan →
        (evalHemo st).vo2 = none ∧ (evalHemo st).co = none ∧
        (evalHemo st).ci = none)
    ∧ (∀ hv wv : ℝ, clampNum st.heightCm = some hv →
        clampNum st.weightKg = some wv → hv * wv < 0 →
        (evalHemo st).bsa = some JNum.nan) := by
  refine ⟨?_, ?_, ?_, ?_, ?_, ?_, ?_⟩
  · rintro wq rfl hw
    exact ⟨calcDose_none_of_weight_nonpos _ _ _ wq hw,
      calcRate_none_of_weight_nonpos _ _ _ wq hw⟩
  · rintro mq vq rfl rfl hc
    exact ⟨calcDose_none_of_conc_nonpos _ _ _ _ hc,
      calcRate_none_of_conc_nonpos _ _ _ _ hc⟩
  · intro h
    exact svCalc_hr_zero _ _ h
  · intro h
    exact ⟨svCalc_falsy _ _ _ h (Or.inr rfl), svrCalc_co_zero _ _ _ h,
      pvrCalc_co_zero _ _ _ h, pvrWUCalc_co_zero _ _ _ h⟩
  · intro h
    exact ⟨vo2Calc_falsy _ _ h (Or.inr rfl), ciCalc_bsa_zero _ _ h⟩
  · intro h
    have hv : (evalHemo st).vo2 = none := vo2Calc_falsy _ _ h (Or.inl rfl)
    have hco : (evalHemo st).co = none := coCalc_none _ _ _ (Or.inl hv)
    exact ⟨hv, hco, ciCalc_none _ _ (Or.inl hco)⟩
  · intro hv wv hh hw hneg
    have hv0 : hv ≠ 0 := by rintro rfl; simp at hneg
    have hw0 : wv ≠ 0 := by rintro rfl; simp at hneg
    rw [evalHemo_bsa]
    simp only [bsaCalc.eq_def, hh, hw]
    rw [if_neg (by push_neg; exact ⟨hv0, hw0⟩),
      jsSqrt_of_neg _ (div_neg_of_neg_of_pos hneg (by norm_num))]

/-- C4 witness: a present weight of −70 kg makes both drip conversions
absent. -/
theorem absent_on_invalid_inputs_witness :
    calcDose (some 4) (some 250) (some 10) (some (-70)) = none ∧
      calcRate (some 4) (some 250) (some (3/10)) (some (-70)) = none :=
  (absent_on_invalid_inputs (some 4) (some 250) (some 10) (some (3/10))
      (some (-70)) (sbpDbpOnly 120 80)).1 (-70) rfl (by norm_num)

/-- A present BSA is `NaN` or a nonnegative number (it is `Math.sqrt` of a
finite radicand). -/
lemma bsaCalc_shape (hc wk : Entry) (b : JNum) (h : bsaCalc hc wk = some b) :
    b = JNum.nan ∨ ∃ x : ℝ, b = JNum.num x ∧ 0 ≤ x := by
  rcases h1 : clampNum hc with _ | hv
  · rw [bsaCalc_none _ _ (Or.inl h1)] at h
    exact Option.noConfusion h
  · rcases h2 : clampNum wk with _ | wv
    · rw [bsaCalc_none _ _ (Or.inr h2)] at h
      exact Option.noConfusion h
    · simp only [bsaCalc.eq_def, h1, h2] at h
      by_cases hg : hv = 0 ∨ wv = 0
      · rw [if_pos hg] at h
        exact Option.noConfusion h
      · rw [if_neg hg] at h
        have hb : jsSqrt (hv * wv / 3600) = b := Option.some.inj h
        by_cases hneg : hv * wv / 3600 < 0
        · left
          rw [← hb, jsSqrt_of_neg _ hneg]
        · right
          refine ⟨Real.sqrt (hv * wv / 3600), ?_, Real.sqrt_nonneg _⟩
          rw [← hb, jsSqrt_of_nonneg _ (not_lt.mp hneg)]

/-- A present VO₂ estimate is a strictly positive number. -/
lemma vo2Calc_shape (hc wk : Entry) (v : JNum)
    (h : vo2Calc (bsaCalc hc wk) = some v) :
    ∃ x : ℝ, v = JNum.num x ∧ 0 < x := by
  rcases hb : bsaCalc hc wk with _ | b
  · rw [hb, vo2Calc_none] at h
    exact Option.noConfusion h
  · rw [hb] at h
    simp only [vo2Calc.eq_def] at h
    by_cases hf : jsFalsy b
    · rw [if_pos hf] at h
      exact Option.noConfusion h
    · rw [if_neg hf] at h
      rcases bsaCalc_shape hc wk b hb with hnan | ⟨x, rfl, hx⟩
      · exact absurd (Or.inl hnan) hf
      · have hx0 : x ≠ 0 := by
          rintro rfl
          exact hf (Or.inr rfl)
        refine ⟨125 * x, ?_, by positivity⟩
        rw [jsScale_num] at h
        exact (Option.some.inj h).symm

/-- A present cardiac output is a strictly positive number. -/
lemma coCalc_shape (st : HemoInputs) (C : JNum)
    (h : (evalHemo st).co = some C) : ∃ c : ℝ, C = JNum.num c ∧ 0 < c := by
  rw [evalHemo_co] at h
  rcases hv : vo2Calc (bsaCalc st.heightCm st.weightKg) with _ | v
  · rw [coCalc_none _ _ _ (Or.inl hv)] at h
    exact Option.noConfusion h
  · rcases ha : caO2Calc st.hb st.sao2 with _ | a
    · rw [coCalc_none _ _ _ (Or.inr (Or.inl ha))] at h
      exact Option.noConfusion h
    · rcases hb2 : cvO2Calc st.hb st.svo2 with _ | b
      · rw [coCalc_none _ _ _ (Or.inr (Or.inr hb2))] at h
        exact Option.noConfusion h
      · rw [hv, ha, hb2] at h
        simp only [coCalc.eq_def] at h
        by_cases hd : a - b ≤ 0
        · rw [if_pos hd] at h
          exact Option.noConfusion h
        · rw [if_neg hd] at h
          obtain ⟨x, rfl, hx⟩ := vo2Calc_shape st.heightCm st.weightKg v hv
          have hab : 0 < a - b := not_le.mp hd
          have hden : (a - b) * 10 ≠ 0 :=
            mul_ne_zero (ne_of_gt hab) (by norm_num)
          rw [jsDiv_num_num x _ hden] at h
          exact ⟨x / ((a - b) * 10), (Option.some.inj h).symm, by positivity⟩

/-- C7.  With VO₂, CaO₂ and CvO₂ all present, cardiac output is present
exactly when CaO₂ − CvO₂ > 0, in which case it equals
VO₂ / ((CaO₂ − CvO₂) × 10) and is strictly positive; when CaO₂ ≤ CvO₂ it is
absent. -/
theorem co_present_iff_pos_gap (st : HemoInputs) (v : JNum) (a b : ℝ)
    (hv : (evalHemo st).vo2 = some v) (ha : (evalHemo st).caO2 = some a)
    (hb2 : (evalHemo st).cvO2 = some b) :
    ((evalHemo st).co ≠ none ↔ 0 < a - b)
    ∧ (0 < a - b →
        (evalHemo st).co = some (jsDiv v (JNum.num ((a - b) * 10)))
        ∧ ∃ c : ℝ, (evalHemo st).co = some (JNum.num c) ∧ 0 < c)
    ∧ (a ≤ b → (evalHemo st).co = none) := by
  have hv' : vo2Calc (bsaCalc st.heightCm st.weightKg) = some v := by
    rw [← evalHemo_vo2]
    exact hv
  have ha' : caO2Calc st.hb st.sao2 = some a := by
    rw [← evalHemo_caO2]
    exact ha
  have hb2' : cvO2Calc st.hb st.svo2 = some b := by
    rw [← evalHemo_cvO2]
    exact hb2
  have hco_eq : (evalHemo st).co
      = if a - b ≤ 0 then none else some (jsDiv v (JNum.num ((a - b) * 10))) := by
    rw [evalHemo_co, hv', ha', hb2']
    simp only [coCalc.eq_def]
  refine ⟨⟨?_, ?_⟩, ?_, ?_⟩
  · intro hne
    by_contra hle
    exact hne (by rw [hco_eq, if_pos (not_lt.mp hle)])
  · intro hpos
    rw [hco_eq, if_neg (not_le.mpr hpos)]
    exact Option.some_ne_none _
  · intro hpos
    have h1 : (evalHemo st).co = some (jsDiv v (JNum.num ((a - b) * 10))) := by
      rw [hco_eq, if_neg (not_le.mpr hpos)]
    obtain ⟨c, hC, hcpos⟩ := coCalc_shape st _ h1
    exact ⟨h1, ⟨c, by rw [h1, hC], hcpos⟩⟩
  · intro hle
    rw [hco_eq, if_pos (by linarith)]

/-- C7 witness: the full Fick record (BSA 2 m², VO₂ 250, CaO₂ − CvO₂ > 0)
has a present cardiac output. -/
theorem co_present_iff_pos_gap_witness :
    (evalHemo (fickRecord (finEnt 5) (finEnt 12))).co ≠ none := by
  have h := co_present_iff_pos_gap (fickRecord (finEnt 5) (finEnt 12))
    (JNum.num 250) (1.34 * 14 * (98 / 100)) (1.34 * 14 * (70 / 100))
    (fick_vo2 _ _) (fick_caO2 _ _) (fick_cvO2 _ _)
  exact h.1.mpr (by norm_num)

/-- C10.  A CVP entry that parses to exactly 0 counts as present for SVR:
the guard (source line 145) tests `Cv == null`, not truthiness, so with MAP
present and a present nonzero CO the result is 80 × (MAP − 0) / CO
= 80 × MAP / CO. -/
theorem svr_with_zero_cvp (st : HemoInputs) (M : ℝ) (C : JNum)
    (hm : (evalHemo st).map = some M) (hco : (evalHemo st).co = some C)
    (hC0 : C ≠ JNum.num 0) (hcvp : clampNum st.cvp = some 0) :
    ∃ c : ℝ, C = JNum.num c ∧
      (evalHemo st).svr = some (JNum.num (80 * M / c)) := by
  obtain ⟨c, rfl, hcpos⟩ := coCalc_shape st C hco
  refine ⟨c, rfl, ?_⟩
  rw [evalHemo_svr, hm, hco]
  simp only [svrCalc.eq_def, hcvp]
  rw [if_neg hC0, jsDiv_num_num _ _ (ne_of_gt hcpos),
    show (80 * (M - 0) : ℝ) = 80 * M from by ring]

/-- C10 witness: the Fick record with CVP entered as 0 yields
SVR = 80 × MAP / CO. -/
theorem svr_with_zero_cvp_witness :
    (evalHemo (fickRecord (finEnt 0) (finEnt 12))).svr
      = some (JNum.num (80 * (80 + (120 - 80) / 3) / fickCo)) := by
  obtain ⟨c, hc, hsvr⟩ := svr_with_zero_cvp (fickRecord (finEnt 0) (finEnt 12))
    (80 + (120 - 80) / 3) (JNum.num fickCo) (fick_map _ _) (fick_co _ _)
    (fun h => absurd (JNum.num.inj h) (ne_of_gt fickCo_pos)) rfl
  rw [show c = fickCo from (JNum.num.inj hc).symm] at hsvr
  exact hsvr
